import Mathlib

/-! # juju-client-go: the connection helper

A shallow embedding of `utils/helper.go` and `main.go`.

The Go code is a sequence of calls into libraries (`os/exec`, `encoding/json`,
`juju/api/connector`, `juju/api/client/application`, `zerolog`).  Every call that
leaves the repository is taken from an environment `Env`, and every such
call is written to a trace, so that "the tool output is never decoded" or "no dial
is attempted" are statements about the trace.  Go run-time panics are a separate
outcome, distinct from returning an error.

The second half of the file gives one concrete inhabitant of the JSON part of the
environment, `goJson`, a model of the fragment of `encoding/json` the helper
exercises, so that the functions can be evaluated on concrete tool outputs.
-/

namespace JujuClient

/-! ## Go values -/

/-- Go `error` value, identified by its message; `Option GoError` is a Go `error`
that may be `nil`. -/
structure GoError where
  msg : String
deriving DecidableEq, Repr

/-- Go `[]byte`: each element is a byte value below 256. -/
abbrev Bytes := List Nat

/-- A JSON number as `encoding/json` hands it on.  Go stores it in a `float64`; here it
is the decimal it was written as, `(-1)^neg * digits * 10^exp10`. -/
structure JNumber where
  neg : Bool
  digits : Nat
  exp10 : Int
deriving DecidableEq, Repr

/-- The dynamic values `json.Unmarshal` stores into an `interface{}`:
`nil`, `bool`, `float64`, `string`, `[]interface{}` and `map[string]interface{}`.
A map is listed in the order a `range` statement would visit it from its first
bucket; a `range` may start anywhere (see `rangeFirst`). -/
inductive JVal where
  | nil
  | bool (b : Bool)
  | float64 (n : JNumber)
  | string (s : String)
  | slice (xs : List JVal)
  | map (kvs : List (String × JVal))

/-- The dynamic type name the Go run time prints in an interface-conversion panic. -/
def JVal.typeName : JVal → String
  | .nil => "nil"
  | .bool _ => "bool"
  | .float64 _ => "float64"
  | .string _ => "string"
  | .slice _ => "[]interface \x7b\x7d"
  | .map _ => "map[string]interface \x7b\x7d"

/-! ## The data model of `utils/helper.go` -/

/-- The anonymous struct of the field `ProviderDetails` (JSON key `details`).
A `[]string` is `none` when the slice is `nil`. -/
structure ProviderDetails where
  UUID : String
  ApiEndpoints : Option (List String)
  Cloud : String
  Region : String
  AgentVersion : String
  AgentGitCommit : String
  ControllerModelVersion : String
  MongoVersion : String
  CAFingerprint : String
  CACert : String
deriving DecidableEq, Repr

/-- The anonymous struct that is the value type of `Models`; `UnitCount` is a Go `uint`. -/
structure ModelEntry where
  UUID : String
  UnitCount : Nat
deriving DecidableEq, Repr

/-- The anonymous struct of the field `Account`. -/
structure Account where
  User : String
  Password : String
  Access : String
deriving DecidableEq, Repr

/-- The struct `jujuControllerConfig`, the shape of one controller in the output of
`juju show-controller --show-password`.  A Go map is `none` when it is `nil`. -/
structure jujuControllerConfig where
  ProviderDetails : ProviderDetails
  CurrentModel : String
  Models : Option (List (String × ModelEntry))
  Account : Account
deriving DecidableEq, Repr

/-- The Go zero value `jujuControllerConfig{}`. -/
def jujuControllerConfig.zero : jujuControllerConfig :=
  { ProviderDetails :=
      { UUID := "", ApiEndpoints := none, Cloud := "", Region := "", AgentVersion := "",
        AgentGitCommit := "", ControllerModelVersion := "", MongoVersion := "",
        CAFingerprint := "", CACert := "" }
    CurrentModel := ""
    Models := none
    Account := { User := "", Password := "", Access := "" } }

/-- The struct `ControllerConfig`. -/
structure ControllerConfig where
  JujuCaCert : String
  JujuControllerAddresses : Option (List String)
  JujuPassword : String
  JujuUsername : String
  ModelUUID : String
deriving DecidableEq, Repr

/-- The Go zero value `ControllerConfig{}`. -/
def ControllerConfig.zero : ControllerConfig :=
  { JujuCaCert := "", JujuControllerAddresses := none, JujuPassword := "",
    JujuUsername := "", ModelUUID := "" }

/-- The struct `connectionHelper`; `config` is a pointer, `none` when it is `nil`. -/
structure connectionHelper where
  config : Option ControllerConfig
deriving DecidableEq, Repr

/-- `NewConnectionHelper` returns `&connectionHelper{}`. -/
def NewConnectionHelper : connectionHelper :=
  { config := none }

/-! ## Library types -/

/-- Go `time.Duration`: a count of nanoseconds. -/
abbrev Duration := Int

def Nanosecond : Duration := 1
def Microsecond : Duration := 1000 * Nanosecond
def Millisecond : Duration := 1000 * Microsecond
def Second : Duration := 1000 * Millisecond
def Minute : Duration := 60 * Second

/-- The data fields of `api.DialOpts`. -/
structure DialOpts where
  DialAddressInterval : Duration
  DialTimeout : Duration
  Timeout : Duration
  RetryDelay : Duration
  InsecureSkipVerify : Bool
deriving DecidableEq, Repr

/-- Go `api.DialOption`, a `func(*DialOpts)`, as the update it performs. -/
abbrev DialOption := DialOpts → DialOpts

/-- The fields of `connector.SimpleConfig` that `ConnectWithModel` sets. -/
structure SimpleConfig where
  ControllerAddresses : Option (List String)
  Username : String
  Password : String
  CACert : String
  ModelUUID : String
deriving DecidableEq, Repr

/-- A `*connector.SimpleConnector`, as a handle. -/
structure Connector where
  id : Nat
deriving DecidableEq, Repr

/-- An `api.Connection`, as a handle. -/
structure Connection where
  id : Nat
deriving DecidableEq, Repr

/-- A `*params.ApplicationGetResults`, reduced to its option values. -/
structure ApplicationGetResults where
  settings : List (String × String)
deriving DecidableEq, Repr

/-- What the operating system does with a command: it cannot be started, or it runs
to the end with some bytes on standard output and an exit status. -/
inductive ToolRun where
  | notStarted (err : GoError)
  | exited (stdout : Bytes) (status : Nat)

/-- The method `(*exec.Cmd).Output`: standard output and an error that is non-nil when
the command could not be run or did not exit with status zero. -/
def ToolRun.Output : ToolRun → Bytes × Option GoError
  | .notStarted err => ([], some err)
  | .exited stdout 0 => (stdout, none)
  | .exited stdout (n + 1) => (stdout, some ⟨"exit status " ++ toString (n + 1)⟩)

/-- The three calls of `encoding/json` made by the helper.  `UnmarshalConfig data c` is
`json.Unmarshal(data, &c)` for a `c` of type `jujuControllerConfig`: the struct
after the call and the returned error. -/
structure JsonLib where
  Unmarshal : Bytes → Except GoError JVal
  Marshal : JVal → Except GoError Bytes
  UnmarshalConfig : Bytes → jujuControllerConfig → jujuControllerConfig × Option GoError

/-- Everything outside the repository.  A Go function returning `(T, error)` is
an `Except GoError T`. -/
structure Env where
  json : JsonLib
  exec : String → List String → ToolRun
  rangeStart : Nat
  NewSimple : SimpleConfig → List DialOption → Except GoError Connector
  Connect : Connector → Except GoError Connection
  Get : Option Connection → String → String → Except GoError ApplicationGetResults

/-! ## Traces and outcomes -/

inductive Level where
  | debug
  | info
  | error
deriving DecidableEq, Repr

/-- The fields attached to a log event. -/
inductive LogField where
  | err (e : GoError)
  | controllerConfig (c : Option ControllerConfig)
  | appConfig (r : ApplicationGetResults)
deriving DecidableEq, Repr

/-- One call that leaves the repository. -/
inductive Event where
  | logOutput
  | exec (name : String) (args : List String)
  | jsonUnmarshal (data : Bytes)
  | jsonMarshal (v : JVal)
  | jsonUnmarshalConfig (data : Bytes)
  | log (level : Level) (fields : List LogField) (msg : String)
  | newSimple (cfg : SimpleConfig) (opts : List DialOption)
  | connect (c : Connector)
  | newClient (conn : Option Connection)
  | get (branch : String) (application : String)
  | close

/-- The events of the connection stage: building a connector and dialling. -/
def Event.isDial : Event → Bool
  | .newSimple _ _ => true
  | .connect _ => true
  | _ => false

/-- The events of the application client. -/
def Event.isClient : Event → Bool
  | .newClient _ => true
  | .get _ _ => true
  | .close => true
  | _ => false

/-- The events of `encoding/json`. -/
def Event.isDecode : Event → Bool
  | .jsonUnmarshal _ => true
  | .jsonMarshal _ => true
  | .jsonUnmarshalConfig _ => true
  | _ => false

/-- How a Go call ends: it returns, or the goroutine panics. -/
inductive Outcome (α : Type) where
  | returned (a : α)
  | panicked (msg : String)

/-- A finished call of a method of `connectionHelper`: the helper afterwards, the
events of the call in order, and how it ended. -/
structure Run (α : Type) where
  helper : connectionHelper
  trace : List Event
  outcome : Outcome α

/-! ## `ConfigWithLocalJuju` -/

/-- The entry a `for ... range` over a map visits first: Go leaves the starting
point of the iteration unspecified, the environment picks it. -/
def rangeFirst (start : Nat) (kvs : List (String × JVal)) : Option (String × JVal) :=
  kvs.get? (start % kvs.length)

/-- Lines 102-110 of `helper.go`: a fresh `ControllerConfig` is stored and filled from
the decoded struct; `ModelUUID` is not assigned. -/
def storeConfig (controllerConfig : jujuControllerConfig) : connectionHelper :=
  let c0 : ControllerConfig := ControllerConfig.zero
  let c1 := { c0 with JujuCaCert := controllerConfig.ProviderDetails.CACert }
  let c2 := { c1 with JujuControllerAddresses := controllerConfig.ProviderDetails.ApiEndpoints }
  let c3 := { c2 with JujuPassword := controllerConfig.Account.Password }
  let c4 := { c3 with JujuUsername := controllerConfig.Account.User }
  { config := some c4 }

/-- The arguments of the command line the helper runs. -/
def jujuArgs : List String :=
  ["show-controller", "--show-password", "--format=json"]

/-- The method `ConfigWithLocalJuju`; the returned value is the Go `error`. -/
def ConfigWithLocalJuju (env : Env) (ch : connectionHelper) : Run (Option GoError) :=
  let t0 := [Event.exec "juju" jujuArgs]
  match (env.exec "juju" jujuArgs).Output with
  | (_, some err) =>
    ⟨ch, t0 ++ [Event.log .error [.err err] "error invoking juju CLI"], .returned (some err)⟩
  | (cmdData, none) =>
    let t1 := t0 ++ [Event.jsonUnmarshal cmdData]
    match env.json.Unmarshal cmdData with
    | .error err =>
      ⟨ch, t1 ++ [Event.log .error [.err err] "error unmarshalling Juju CLI output"],
        .returned (some err)⟩
    | .ok cliOutput =>
      let done (t : List Event) (controllerConfig : jujuControllerConfig) :
          Run (Option GoError) :=
        let ch1 := storeConfig controllerConfig
        ⟨ch1, t ++ [Event.log .debug [.controllerConfig ch1.config]
            "controller configured using juju CLI"], .returned none⟩
      match cliOutput with
      | .map kvs =>
        match rangeFirst env.rangeStart kvs with
        | none => done t1 jujuControllerConfig.zero
        | some (_, v) =>
          let t2 := t1 ++ [Event.jsonMarshal v]
          match env.json.Marshal v with
          | .error err =>
            ⟨ch, t2 ++ [Event.log .error [.err err] "error marshalling provider config"],
              .returned (some err)⟩
          | .ok marshalled =>
            let t3 := t2 ++ [Event.jsonUnmarshalConfig marshalled]
            match env.json.UnmarshalConfig marshalled jujuControllerConfig.zero with
            | (_, some err) =>
              ⟨ch, t3 ++ [Event.log .error [.err err]
                  "error unmarshalling provider configuration from Juju CLI"],
                .returned (some err)⟩
            | (controllerConfig, none) => done t3 controllerConfig
      | other =>
        ⟨ch, t1, .panicked ("interface conversion: interface \x7b\x7d is " ++ other.typeName
          ++ ", not map[string]interface \x7b\x7d")⟩

/-! ## `Connect` and `ConnectWithModel` -/

/-- The closure `dialOptions` of `ConnectWithModel`. -/
def dialOptions : DialOption := fun d =>
  let d1 := { d with Timeout := 5 * Minute }
  { d1 with RetryDelay := 1 * Second }

/-- The method `ConnectWithModel`; the returned pair is `(api.Connection, error)`. -/
def ConnectWithModel (env : Env) (ch : connectionHelper) (model : String) :
    Run (Option Connection × Option GoError) :=
  let modelUUID := if model ≠ "" then model else ""
  match ch.config with
  | none =>
    let err : GoError := ⟨"nil configuration"⟩
    ⟨ch, [Event.log .error [.err err] "configure the helper first"], .returned (none, some err)⟩
  | some config =>
    let simple : SimpleConfig :=
      { ControllerAddresses := config.JujuControllerAddresses
        Username := config.JujuUsername
        Password := config.JujuPassword
        CACert := config.JujuCaCert
        ModelUUID := modelUUID }
    let t0 := [Event.newSimple simple [dialOptions]]
    match env.NewSimple simple [dialOptions] with
    | .error err => ⟨ch, t0, .returned (none, some err)⟩
    | .ok connr =>
      let t1 := t0 ++ [Event.connect connr]
      match env.Connect connr with
      | .error err => ⟨ch, t1, .returned (none, some err)⟩
      | .ok conn => ⟨ch, t1, .returned (some conn, none)⟩

/-- The method `Connect`. -/
def Connect (env : Env) (ch : connectionHelper) : Run (Option Connection × Option GoError) :=
  ConnectWithModel env ch ""

/-! ## `main.go` -/

/-- The function `doSomething`. -/
def doSomething (env : Env) : Run Unit :=
  let helper := NewConnectionHelper
  let r1 := ConfigWithLocalJuju env helper
  let t0 := Event.logOutput :: r1.trace
  match r1.outcome with
  | .panicked msg => ⟨r1.helper, t0, .panicked msg⟩
  | .returned err1 =>
    let t1 := match err1 with
      | some err => t0 ++ [Event.log .error [.err err] "failed when configuring connection"]
      | none => t0
    let modelUUID := "f72ef260-3f4d-4f29-8e2a-32fc2bbfea60"
    let r2 := ConnectWithModel env r1.helper modelUUID
    let t2 := t1 ++ r2.trace
    match r2.outcome with
    | .panicked msg => ⟨r2.helper, t2, .panicked msg⟩
    | .returned (_, some _) => ⟨r2.helper, t2, .returned ()⟩
    | .returned (conn, none) =>
      let t3 := t2 ++ [Event.newClient conn, Event.get "master" "tiny-bash"]
      match env.Get conn "master" "tiny-bash" with
      | .error err =>
        ⟨r2.helper, t3 ++ [Event.log .error [.err err] "error getting configuration", Event.close],
          .returned ()⟩
      | .ok config =>
        ⟨r2.helper, t3 ++ [Event.log .info [.appConfig config] "tiny-bash config", Event.close],
          .returned ()⟩

/-! ## A model of `encoding/json`

`goJson` models the three calls the helper makes.  A document is scanned into tokens
byte by byte, the tokens are assembled into a syntax tree `Json` with an explicit stack,
and the tree is either turned into Go dynamic values (`json.Unmarshal` into an
`interface{}`) or stored into a `jujuControllerConfig` following its field tags.
A number is carried as the decimal it was written as: the rounding to binary64 done
by Go is not reproduced, only its overflow check.  Error messages are abbreviated. -/

namespace Json

/-- A number literal: `(-1)^neg * digits * 10^(exp - fracLen)`, where `plain` holds
when the literal has neither a fraction nor an exponent. -/
structure NumLit where
  neg : Bool
  digits : Nat
  fracLen : Nat
  expNeg : Bool
  exp : Nat
  plain : Bool
deriving DecidableEq, Repr

/-- A JSON document as written: members in document order, duplicates kept. -/
inductive Tree where
  | null
  | bool (b : Bool)
  | num (n : NumLit)
  | str (s : String)
  | arr (xs : List Tree)
  | obj (kvs : List (String × Tree))

/-- The name `encoding/json` gives a JSON value in an `UnmarshalTypeError`. -/
def Tree.kind : Tree → String
  | .null => "null"
  | .bool _ => "bool"
  | .num _ => "number"
  | .str _ => "string"
  | .arr _ => "array"
  | .obj _ => "object"

inductive Tok where
  | lbrace
  | rbrace
  | lbrack
  | rbrack
  | colon
  | comma
  | null
  | bool (b : Bool)
  | num (n : NumLit)
  | str (s : String)
deriving DecidableEq, Repr

/-- A piece of a string body: a raw byte, or the code unit of a `\uXXXX` escape. -/
inductive StrUnit where
  | byte (b : Nat)
  | u16 (n : Nat)
deriving DecidableEq, Repr

def syntaxError (what : String) : GoError :=
  ⟨"invalid character " ++ what⟩

def unexpectedEnd : GoError :=
  ⟨"unexpected end of JSON input"⟩

/-! ### Strings -/

def replacementChar : Char := Char.ofNat 0xFFFD

def isCont (b : Nat) : Bool := 0x80 ≤ b && b ≤ 0xBF

/-- The character at the head of a string body and the number of units it takes:
UTF-8 is decoded, a high and a low surrogate escape are joined, and whatever is not
valid becomes U+FFFD (one byte of invalid UTF-8 at a time). -/
def headChar (u : StrUnit) (rest : List StrUnit) : Char × Nat :=
  match u, rest with
  | .u16 hi, .u16 lo :: _ =>
    if 0xD800 ≤ hi ∧ hi < 0xDC00 ∧ 0xDC00 ≤ lo ∧ lo < 0xE000 then
      (Char.ofNat (0x10000 + (hi - 0xD800) * 0x400 + (lo - 0xDC00)), 2)
    else if 0xD800 ≤ hi ∧ hi < 0xE000 then (replacementChar, 1)
    else (Char.ofNat hi, 1)
  | .u16 hi, _ =>
    if 0xD800 ≤ hi ∧ hi < 0xE000 then (replacementChar, 1) else (Char.ofNat hi, 1)
  | .byte b0, rest =>
    if b0 < 0x80 then (Char.ofNat b0, 1)
    else
      match rest with
      | .byte b1 :: .byte b2 :: .byte b3 :: _ =>
        let c2 := (b0 - 0xC0) * 0x40 + (b1 - 0x80)
        let c3 := (b0 - 0xE0) * 0x1000 + (b1 - 0x80) * 0x40 + (b2 - 0x80)
        let c4 := (b0 - 0xF0) * 0x40000 + (b1 - 0x80) * 0x1000 + (b2 - 0x80) * 0x40
          + (b3 - 0x80)
        if 0xC0 ≤ b0 ∧ b0 < 0xE0 ∧ isCont b1 ∧ 0x80 ≤ c2 then (Char.ofNat c2, 2)
        else if 0xE0 ≤ b0 ∧ b0 < 0xF0 ∧ isCont b1 ∧ isCont b2 ∧ 0x800 ≤ c3
            ∧ ¬ (0xD800 ≤ c3 ∧ c3 < 0xE000) then (Char.ofNat c3, 3)
        else if 0xF0 ≤ b0 ∧ b0 < 0xF8 ∧ isCont b1 ∧ isCont b2 ∧ isCont b3 ∧ 0x10000 ≤ c4
            ∧ c4 < 0x110000 then (Char.ofNat c4, 4)
        else (replacementChar, 1)
      | .byte b1 :: .byte b2 :: _ =>
        let c2 := (b0 - 0xC0) * 0x40 + (b1 - 0x80)
        let c3 := (b0 - 0xE0) * 0x1000 + (b1 - 0x80) * 0x40 + (b2 - 0x80)
        if 0xC0 ≤ b0 ∧ b0 < 0xE0 ∧ isCont b1 ∧ 0x80 ≤ c2 then (Char.ofNat c2, 2)
        else if 0xE0 ≤ b0 ∧ b0 < 0xF0 ∧ isCont b1 ∧ isCont b2 ∧ 0x800 ≤ c3
            ∧ ¬ (0xD800 ≤ c3 ∧ c3 < 0xE000) then (Char.ofNat c3, 3)
        else (replacementChar, 1)
      | .byte b1 :: _ =>
        let c2 := (b0 - 0xC0) * 0x40 + (b1 - 0x80)
        if 0xC0 ≤ b0 ∧ b0 < 0xE0 ∧ isCont b1 ∧ 0x80 ≤ c2 then (Char.ofNat c2, 2)
        else (replacementChar, 1)
      | _ => (replacementChar, 1)

/-- The units of a string body as Go characters; `skip` units at the front belong
to the character before. -/
def decodeUnits : Nat → List StrUnit → List Char
  | _, [] => []
  | skip + 1, _ :: rest => decodeUnits skip rest
  | 0, u :: rest => (headChar u rest).1 :: decodeUnits ((headChar u rest).2 - 1) rest

def hexVal (b : Nat) : Option Nat :=
  if 0x30 ≤ b ∧ b ≤ 0x39 then some (b - 0x30)
  else if 0x61 ≤ b ∧ b ≤ 0x66 then some (b - 0x61 + 10)
  else if 0x41 ≤ b ∧ b ≤ 0x46 then some (b - 0x41 + 10)
  else none

/-! ### The scanner -/

/-- Where the scanner stands inside a number. -/
inductive NumPhase where
  | minus
  | zero
  | int
  | dot
  | frac
  | e
  | esign
  | exp
deriving DecidableEq, Repr

inductive LexState where
  | start
  | lit (rest : Bytes) (tok : Tok)
  | str (acc : List StrUnit)
  | esc (acc : List StrUnit)
  | hex (acc : List StrUnit) (n : Nat) (left : Nat)
  | num (ph : NumPhase) (a : NumLit)

def isDigit (b : Nat) : Bool := 0x30 ≤ b && b ≤ 0x39

def numStart (neg : Bool) (d : Nat) : NumLit :=
  { neg := neg, digits := d, fracLen := 0, expNeg := false, exp := 0, plain := true }

/-- One byte read between two tokens. -/
def startStep (b : Nat) : Except GoError (LexState × List Tok) :=
  if b = 0x20 ∨ b = 0x09 ∨ b = 0x0A ∨ b = 0x0D then .ok (.start, [])
  else if b = 0x7B then .ok (.start, [.lbrace])
  else if b = 0x7D then .ok (.start, [.rbrace])
  else if b = 0x5B then .ok (.start, [.lbrack])
  else if b = 0x5D then .ok (.start, [.rbrack])
  else if b = 0x3A then .ok (.start, [.colon])
  else if b = 0x2C then .ok (.start, [.comma])
  else if b = 0x22 then .ok (.str [], [])
  else if b = 0x2D then .ok (.num .minus (numStart true 0), [])
  else if b = 0x30 then .ok (.num .zero (numStart false 0), [])
  else if isDigit b then .ok (.num .int (numStart false (b - 0x30)), [])
  else if b = 0x74 then .ok (.lit [0x72, 0x75, 0x65] (.bool true), [])
  else if b = 0x66 then .ok (.lit [0x61, 0x6C, 0x73, 0x65] (.bool false), [])
  else if b = 0x6E then .ok (.lit [0x75, 0x6C, 0x6C] .null, [])
  else .error (syntaxError "looking for beginning of value")

/-- The number is over at `b`: it is a token, and `b` is read afresh. -/
def numEnd (a : NumLit) (b : Nat) : Except GoError (LexState × List Tok) :=
  match startStep b with
  | .error err => .error err
  | .ok (st, toks) => .ok (st, .num a :: toks)

def isE (b : Nat) : Bool := b = 0x65 || b = 0x45

/-- One byte read inside a number. -/
def numStep (ph : NumPhase) (a : NumLit) (b : Nat) : Except GoError (LexState × List Tok) :=
  let d := b - 0x30
  match ph with
  | .minus =>
    if b = 0x30 then .ok (.num .zero a, [])
    else if isDigit b then .ok (.num .int { a with digits := d }, [])
    else .error (syntaxError "in numeric literal")
  | .zero =>
    if b = 0x2E then .ok (.num .dot { a with plain := false }, [])
    else if isE b then .ok (.num .e { a with plain := false }, [])
    else numEnd a b
  | .int =>
    if isDigit b then .ok (.num .int { a with digits := a.digits * 10 + d }, [])
    else if b = 0x2E then .ok (.num .dot { a with plain := false }, [])
    else if isE b then .ok (.num .e { a with plain := false }, [])
    else numEnd a b
  | .dot =>
    if isDigit b then
      .ok (.num .frac { a with digits := a.digits * 10 + d, fracLen := a.fracLen + 1 }, [])
    else .error (syntaxError "after decimal point in numeric literal")
  | .frac =>
    if isDigit b then
      .ok (.num .frac { a with digits := a.digits * 10 + d, fracLen := a.fracLen + 1 }, [])
    else if isE b then .ok (.num .e a, [])
    else numEnd a b
  | .e =>
    if b = 0x2B then .ok (.num .esign a, [])
    else if b = 0x2D then .ok (.num .esign { a with expNeg := true }, [])
    else if isDigit b then .ok (.num .exp { a with exp := d }, [])
    else .error (syntaxError "in exponent of numeric literal")
  | .esign =>
    if isDigit b then .ok (.num .exp { a with exp := d }, [])
    else .error (syntaxError "in exponent of numeric literal")
  | .exp =>
    if isDigit b then .ok (.num .exp { a with exp := a.exp * 10 + d }, [])
    else numEnd a b

/-- One byte read by the scanner. -/
def lexStep (st : LexState) (b : Nat) : Except GoError (LexState × List Tok) :=
  match st with
  | .start => startStep b
  | .lit [] _ => .error (syntaxError "in literal")
  | .lit [x] tok => if b = x then .ok (.start, [tok]) else .error (syntaxError "in literal")
  | .lit (x :: xs) tok => if b = x then .ok (.lit xs tok, []) else .error (syntaxError "in literal")
  | .str acc =>
    if b = 0x22 then .ok (.start, [.str (String.mk (decodeUnits 0 acc.reverse))])
    else if b = 0x5C then .ok (.esc acc, [])
    else if b < 0x20 then .error (syntaxError "in string literal")
    else .ok (.str (.byte b :: acc), [])
  | .esc acc =>
    if b = 0x22 ∨ b = 0x5C ∨ b = 0x2F then .ok (.str (.byte b :: acc), [])
    else if b = 0x62 then .ok (.str (.byte 0x08 :: acc), [])
    else if b = 0x66 then .ok (.str (.byte 0x0C :: acc), [])
    else if b = 0x6E then .ok (.str (.byte 0x0A :: acc), [])
    else if b = 0x72 then .ok (.str (.byte 0x0D :: acc), [])
    else if b = 0x74 then .ok (.str (.byte 0x09 :: acc), [])
    else if b = 0x75 then .ok (.hex acc 0 4, [])
    else .error (syntaxError "in string escape code")
  | .hex acc n left =>
    match hexVal b with
    | none => .error (syntaxError "in \\u hexadecimal character escape")
    | some h =>
      if left ≤ 1 then .ok (.str (.u16 (n * 16 + h) :: acc), [])
      else .ok (.hex acc (n * 16 + h) (left - 1), [])
  | .num ph a => numStep ph a b

/-- The end of the input. -/
def lexEnd : LexState → Except GoError (List Tok)
  | .start => .ok []
  | .num .zero a => .ok [.num a]
  | .num .int a => .ok [.num a]
  | .num .frac a => .ok [.num a]
  | .num .exp a => .ok [.num a]
  | _ => .error unexpectedEnd

/-- The tokens of a document. -/
def lexFrom : LexState → Bytes → Except GoError (List Tok)
  | st, [] => lexEnd st
  | st, b :: bs =>
    match lexStep st b with
    | .error err => .error err
    | .ok (st1, toks) =>
      match lexFrom st1 bs with
      | .error err => .error err
      | .ok more => .ok (toks ++ more)

/-! ### The parser -/

/-- An array or object that is still open. -/
inductive Frame where
  | arr (acc : List Tree)
  | obj (acc : List (String × Tree)) (key : String)

/-- What the parser may read next. -/
inductive Mode where
  | value
  | valueOrEnd
  | keyOrEnd
  | key
  | colon
  | next
  | done (v : Tree)

structure PState where
  stack : List Frame
  mode : Mode

/-- The nesting limit of the scanner of `encoding/json`. -/
def maxNestingDepth : Nat := 10000

/-- A finished value goes into the innermost open container, or is the document. -/
def feedValue (stack : List Frame) (v : Tree) : PState :=
  match stack with
  | [] => ⟨[], .done v⟩
  | .arr acc :: rest => ⟨.arr (v :: acc) :: rest, .next⟩
  | .obj acc k :: rest => ⟨.obj ((k, v) :: acc) k :: rest, .next⟩

def openFrame (stack : List Frame) (f : Frame) (m : Mode) : Except GoError PState :=
  if maxNestingDepth < stack.length + 1 then .error ⟨"exceeded max depth"⟩
  else .ok ⟨f :: stack, m⟩

def valueTok (stack : List Frame) (t : Tok) : Except GoError PState :=
  match t with
  | .null => .ok (feedValue stack .null)
  | .bool b => .ok (feedValue stack (.bool b))
  | .num n => .ok (feedValue stack (.num n))
  | .str s => .ok (feedValue stack (.str s))
  | .lbrack => openFrame stack (.arr []) .valueOrEnd
  | .lbrace => openFrame stack (.obj [] "") .keyOrEnd
  | _ => .error (syntaxError "looking for beginning of value")

def closeArr (stack : List Frame) : Except GoError PState :=
  match stack with
  | .arr acc :: rest => .ok (feedValue rest (.arr acc.reverse))
  | _ => .error (syntaxError "after object key:value pair")

def closeObj (stack : List Frame) : Except GoError PState :=
  match stack with
  | .obj acc _ :: rest => .ok (feedValue rest (.obj acc.reverse))
  | _ => .error (syntaxError "after array element")

def setKey (stack : List Frame) (k : String) : Except GoError PState :=
  match stack with
  | .obj acc _ :: rest => .ok ⟨.obj acc k :: rest, .colon⟩
  | _ => .error (syntaxError "looking for beginning of object key string")

/-- One token read by the parser. -/
def parseStep (s : PState) (t : Tok) : Except GoError PState :=
  match s.mode with
  | .value => valueTok s.stack t
  | .valueOrEnd =>
    match t with
    | .rbrack => closeArr s.stack
    | _ => valueTok s.stack t
  | .keyOrEnd =>
    match t with
    | .rbrace => closeObj s.stack
    | .str k => setKey s.stack k
    | _ => .error (syntaxError "looking for beginning of object key string")
  | .key =>
    match t with
    | .str k => setKey s.stack k
    | _ => .error (syntaxError "looking for beginning of object key string")
  | .colon =>
    match t with
    | .colon => .ok ⟨s.stack, .value⟩
    | _ => .error (syntaxError "after object key")
  | .next =>
    match t, s.stack with
    | .comma, .arr _ :: _ => .ok ⟨s.stack, .value⟩
    | .comma, .obj _ _ :: _ => .ok ⟨s.stack, .key⟩
    | .rbrack, _ => closeArr s.stack
    | .rbrace, _ => closeObj s.stack
    | _, _ => .error (syntaxError "after array element or object key:value pair")
  | .done _ => .error (syntaxError "after top-level value")

def parseToks : PState → List Tok → Except GoError Tree
  | ⟨_, .done v⟩, [] => .ok v
  | _, [] => .error unexpectedEnd
  | s, t :: ts =>
    match parseStep s t with
    | .error err => .error err
    | .ok s1 => parseToks s1 ts

/-- The syntax tree of a document, or the syntax error. -/
def parse (data : Bytes) : Except GoError Tree :=
  match lexFrom .start data with
  | .error err => .error err
  | .ok toks => parseToks ⟨[], .value⟩ toks

/-- Go `json.Valid(data)`: the bytes are a JSON document. -/
def Valid (data : Bytes) : Bool :=
  match parse data with
  | .ok _ => true
  | .error _ => false

/-! ### Decoding into an `interface{}` -/

/-- The decimal exponent of a literal. -/
def NumLit.exp10 (n : NumLit) : Int :=
  (if n.expNeg then - (n.exp : Int) else (n.exp : Int)) - (n.fracLen : Int)

/-- The literal rounds to a binary64 infinity: its magnitude is at least
`2^1024 - 2^970`, a number of 309 digits.  The count of integer digits of the literal
settles every case but that of 309 digits. -/
def NumLit.overflows (n : NumLit) : Bool :=
  let size : Int := ((Nat.toDigits 10 n.digits).length : Int) + n.exp10
  if n.digits = 0 ∨ size ≤ 308 then false
  else if 310 ≤ size then true
  else if 0 ≤ n.exp10 then decide (2 ^ 1024 - 2 ^ 970 ≤ n.digits * 10 ^ n.exp10.toNat)
  else decide ((2 ^ 1024 - 2 ^ 970) * 10 ^ (- n.exp10).toNat ≤ n.digits)

def NumLit.toNumber (n : NumLit) : JNumber :=
  { neg := n.neg, digits := n.digits, exp10 := n.exp10 }

/-- Assignment `m[k] = v` on a map. -/
def mapSet {α : Type} (m : List (String × α)) (k : String) (v : α) : List (String × α) :=
  match m with
  | [] => [(k, v)]
  | (k1, v1) :: rest => if k1 = k then (k, v) :: rest else (k1, v1) :: mapSet rest k v

mutual
/-- The Go value of a document decoded into an `interface{}`.  A number keeps the value
it was written with, where Go rounds it to the nearest `float64`; the two agree on the
integers of magnitude up to `2^53`. -/
def toInterface : Tree → Except GoError JVal
  | .null => .ok .nil
  | .bool b => .ok (.bool b)
  | .num n =>
    if n.overflows then .error ⟨"json: cannot unmarshal number into Go value of type float64"⟩
    else .ok (.float64 n.toNumber)
  | .str s => .ok (.string s)
  | .arr xs =>
    match toInterfaces xs with
    | .error err => .error err
    | .ok vs => .ok (.slice vs)
  | .obj kvs =>
    match toMembers kvs with
    | .error err => .error err
    | .ok m => .ok (.map (m.foldl (fun acc kv => mapSet acc kv.1 kv.2) []))
def toInterfaces : List Tree → Except GoError (List JVal)
  | [] => .ok []
  | x :: xs =>
    match toInterface x, toInterfaces xs with
    | .ok v, .ok vs => .ok (v :: vs)
    | .error err, _ => .error err
    | _, .error err => .error err
def toMembers : List (String × Tree) → Except GoError (List (String × JVal))
  | [] => .ok []
  | (k, x) :: xs =>
    match toInterface x, toMembers xs with
    | .ok v, .ok vs => .ok ((k, v) :: vs)
    | .error err, _ => .error err
    | _, .error err => .error err
end

/-- Go `json.Unmarshal(data, &v)` for a `v` of type `interface{}`. -/
def Unmarshal (data : Bytes) : Except GoError JVal :=
  match parse data with
  | .error err => .error err
  | .ok t => toInterface t

/-! ### Encoding -/

def digitsOf (n : Nat) : Bytes :=
  (Nat.toDigits 10 n).map Char.toNat

def hexDigit (n : Nat) : Nat :=
  if n < 10 then 0x30 + n else 0x61 + (n - 10)

/-- The escape `\uXXXX`. -/
def escapeU (n : Nat) : Bytes :=
  [0x5C, 0x75, hexDigit (n / 0x1000 % 16), hexDigit (n / 0x100 % 16), hexDigit (n / 0x10 % 16),
    hexDigit (n % 16)]

/-- UTF-8 of a character. -/
def utf8 (n : Nat) : Bytes :=
  if n < 0x80 then [n]
  else if n < 0x800 then [0xC0 + n / 0x40, 0x80 + n % 0x40]
  else if n < 0x10000 then [0xE0 + n / 0x1000, 0x80 + n / 0x40 % 0x40, 0x80 + n % 0x40]
  else [0xF0 + n / 0x40000, 0x80 + n / 0x1000 % 0x40, 0x80 + n / 0x40 % 0x40, 0x80 + n % 0x40]

/-- One character of a string as `json.Marshal` writes it (HTML escaping is on). -/
def encChar (c : Char) : Bytes :=
  let n := c.toNat
  if n = 0x22 ∨ n = 0x5C then [0x5C, n]
  else if n = 0x0A then [0x5C, 0x6E]
  else if n = 0x0D then [0x5C, 0x72]
  else if n = 0x09 then [0x5C, 0x74]
  else if n < 0x20 ∨ n = 0x3C ∨ n = 0x3E ∨ n = 0x26 ∨ n = 0x2028 ∨ n = 0x2029 then escapeU n
  else utf8 n

def encString (s : String) : Bytes :=
  [0x22] ++ s.toList.flatMap encChar ++ [0x22]

/-- The magnitude of a number when it is an integer. -/
def intValue? (n : JNumber) : Option Nat :=
  if n.digits = 0 then some 0
  else if 0 ≤ n.exp10 then some (n.digits * 10 ^ n.exp10.toNat)
  else if (Nat.toDigits 10 n.digits).length ≤ (- n.exp10).toNat then none
  else if n.digits % 10 ^ (- n.exp10).toNat = 0 then some (n.digits / 10 ^ (- n.exp10).toNat)
  else none

/-- A number as `json.Marshal` writes it: an integer of magnitude up to `2^53` as its
digits, as Go does.  Any other number is written in the form `digits e exponent`, with
the value it was read with; Go writes the shortest decimal of the rounded `float64`
there, which is not reproduced. -/
def encNumber (n : JNumber) : Bytes :=
  let sign := if n.neg then [0x2D] else []
  let general := sign ++ digitsOf n.digits ++ [0x65] ++ (if n.exp10 < 0 then [0x2D] else [])
    ++ digitsOf n.exp10.natAbs
  match intValue? n with
  | some m => if m ≤ 2 ^ 53 then sign ++ digitsOf m else general
  | none => general

/-- Order of two keys by their bytes. -/
def keyLe : List Char → List Char → Bool
  | [], _ => true
  | _ :: _, [] => false
  | a :: as, b :: bs => if a.toNat < b.toNat then true else if b.toNat < a.toNat then false
    else keyLe as bs

def insertMember (kv : String × Bytes) : List (String × Bytes) → List (String × Bytes)
  | [] => [kv]
  | x :: xs => if keyLe kv.1.toList x.1.toList then kv :: x :: xs else x :: insertMember kv xs

/-- The members of a map in the order `json.Marshal` writes them: sorted by key. -/
def sortMembers (ms : List (String × Bytes)) : List (String × Bytes) :=
  ms.foldr insertMember []

def joinComma : List Bytes → Bytes
  | [] => []
  | [x] => x
  | x :: xs => x ++ 0x2C :: joinComma xs

mutual
/-- The bytes `json.Marshal` writes for a value held in an `interface{}`. -/
def enc : JVal → Bytes
  | .nil => [0x6E, 0x75, 0x6C, 0x6C]
  | .bool true => [0x74, 0x72, 0x75, 0x65]
  | .bool false => [0x66, 0x61, 0x6C, 0x73, 0x65]
  | .float64 n => encNumber n
  | .string s => encString s
  | .slice xs => [0x5B] ++ joinComma (encs xs) ++ [0x5D]
  | .map kvs =>
    [0x7B] ++ joinComma ((sortMembers (encMembers kvs)).map
      (fun kv => encString kv.1 ++ 0x3A :: kv.2)) ++ [0x7D]
def encs : List JVal → List Bytes
  | [] => []
  | x :: xs => enc x :: encs xs
def encMembers : List (String × JVal) → List (String × Bytes)
  | [] => []
  | (k, x) :: xs => (k, enc x) :: encMembers xs
end

/-- Go `json.Marshal(v)` for a `v` that came out of `json.Unmarshal`. -/
def Marshal (v : JVal) : Except GoError Bytes :=
  .ok (enc v)

/-! ### Decoding into a `jujuControllerConfig` -/

/-- The case folding under which `encoding/json` matches a key against a field name
that is written in ASCII. -/
def foldRune (c : Char) : Nat :=
  let n := c.toNat
  if 0x61 ≤ n ∧ n ≤ 0x7A then n - 0x20
  else if n = 0x17F then 0x53
  else if n = 0x212A then 0x4B
  else n

/-- The key selects the field with this tag name. -/
def keyIs (key name : String) : Bool :=
  key.toList.map foldRune == name.toList.map foldRune

def typeError (v : Tree) (goType : String) : GoError :=
  ⟨"json: cannot unmarshal " ++ v.kind ++ " into Go value of type " ++ goType⟩

/-- The decoder keeps the first type error and goes on. -/
def save (saved : Option GoError) (err : GoError) : Option GoError :=
  match saved with
  | some first => some first
  | none => some err

def storeString (v : Tree) (cur : String) (saved : Option GoError) : String × Option GoError :=
  match v with
  | .str s => (s, saved)
  | .null => (cur, saved)
  | other => (cur, save saved (typeError other "string"))

/-- An array stored into a `[]string`: the element at a position the slice already
has is stored over the old element, so `null` keeps it; an element past the old length
starts empty (the spare capacity of the old slice is taken to be zeroed). -/
def storeStrings (v : Tree) (cur : Option (List String)) (saved : Option GoError) :
    Option (List String) × Option GoError :=
  match v with
  | .arr xs =>
    let r := xs.foldl (fun (acc : List String × Option GoError) x =>
      let e := storeString x ((cur.getD []).getD acc.1.length "") acc.2
      (acc.1 ++ [e.1], e.2)) ([], saved)
    (some r.1, r.2)
  | .null => (none, saved)
  | other => (cur, save saved (typeError other "[]string"))

def storeUint (v : Tree) (cur : Nat) (saved : Option GoError) : Nat × Option GoError :=
  match v with
  | .num n =>
    if n.plain ∧ ¬ n.neg ∧ n.digits < 2 ^ 64 then (n.digits, saved)
    else (cur, save saved (typeError v "uint"))
  | .null => (cur, saved)
  | other => (cur, save saved (typeError other "uint"))

def modelEntryField (acc : ModelEntry × Option GoError) (kv : String × Tree) :
    ModelEntry × Option GoError :=
  if keyIs kv.1 "uuid" then
    let r := storeString kv.2 acc.1.UUID acc.2
    ({ acc.1 with UUID := r.1 }, r.2)
  else if keyIs kv.1 "unit-count" then
    let r := storeUint kv.2 acc.1.UnitCount acc.2
    ({ acc.1 with UnitCount := r.1 }, r.2)
  else acc

def storeModelEntry (v : Tree) (cur : ModelEntry) (saved : Option GoError) :
    ModelEntry × Option GoError :=
  match v with
  | .obj kvs => kvs.foldl modelEntryField (cur, saved)
  | .null => (cur, saved)
  | other => (cur, save saved (typeError other "struct"))

def storeModels (v : Tree) (cur : Option (List (String × ModelEntry))) (saved : Option GoError) :
    Option (List (String × ModelEntry)) × Option GoError :=
  match v with
  | .obj kvs =>
    let r := kvs.foldl (fun (acc : List (String × ModelEntry) × Option GoError) kv =>
      let e := storeModelEntry kv.2 ⟨"", 0⟩ acc.2
      (mapSet acc.1 kv.1 e.1, e.2)) (cur.getD [], saved)
    (some r.1, r.2)
  | .null => (none, saved)
  | other => (cur, save saved (typeError other "map[string]struct"))

def detailsField (acc : ProviderDetails × Option GoError) (kv : String × Tree) :
    ProviderDetails × Option GoError :=
  if keyIs kv.1 "uuid" then
    let r := storeString kv.2 acc.1.UUID acc.2
    ({ acc.1 with UUID := r.1 }, r.2)
  else if keyIs kv.1 "api-endpoints" then
    let r := storeStrings kv.2 acc.1.ApiEndpoints acc.2
    ({ acc.1 with ApiEndpoints := r.1 }, r.2)
  else if keyIs kv.1 "cloud" then
    let r := storeString kv.2 acc.1.Cloud acc.2
    ({ acc.1 with Cloud := r.1 }, r.2)
  else if keyIs kv.1 "region" then
    let r := storeString kv.2 acc.1.Region acc.2
    ({ acc.1 with Region := r.1 }, r.2)
  else if keyIs kv.1 "agent-version" then
    let r := storeString kv.2 acc.1.AgentVersion acc.2
    ({ acc.1 with AgentVersion := r.1 }, r.2)
  else if keyIs kv.1 "agent-git-commit" then
    let r := storeString kv.2 acc.1.AgentGitCommit acc.2
    ({ acc.1 with AgentGitCommit := r.1 }, r.2)
  else if keyIs kv.1 "controller-model-version" then
    let r := storeString kv.2 acc.1.ControllerModelVersion acc.2
    ({ acc.1 with ControllerModelVersion := r.1 }, r.2)
  else if keyIs kv.1 "mongo-version" then
    let r := storeString kv.2 acc.1.MongoVersion acc.2
    ({ acc.1 with MongoVersion := r.1 }, r.2)
  else if keyIs kv.1 "ca-fingerprint" then
    let r := storeString kv.2 acc.1.CAFingerprint acc.2
    ({ acc.1 with CAFingerprint := r.1 }, r.2)
  else if keyIs kv.1 "ca-cert" then
    let r := storeString kv.2 acc.1.CACert acc.2
    ({ acc.1 with CACert := r.1 }, r.2)
  else acc

def storeDetails (v : Tree) (cur : ProviderDetails) (saved : Option GoError) :
    ProviderDetails × Option GoError :=
  match v with
  | .obj kvs => kvs.foldl detailsField (cur, saved)
  | .null => (cur, saved)
  | other => (cur, save saved (typeError other "struct"))

def accountField (acc : Account × Option GoError) (kv : String × Tree) :
    Account × Option GoError :=
  if keyIs kv.1 "user" then
    let r := storeString kv.2 acc.1.User acc.2
    ({ acc.1 with User := r.1 }, r.2)
  else if keyIs kv.1 "password" then
    let r := storeString kv.2 acc.1.Password acc.2
    ({ acc.1 with Password := r.1 }, r.2)
  else if keyIs kv.1 "access" then
    let r := storeString kv.2 acc.1.Access acc.2
    ({ acc.1 with Access := r.1 }, r.2)
  else acc

def storeAccount (v : Tree) (cur : Account) (saved : Option GoError) :
    Account × Option GoError :=
  match v with
  | .obj kvs => kvs.foldl accountField (cur, saved)
  | .null => (cur, saved)
  | other => (cur, save saved (typeError other "struct"))

def configField (acc : jujuControllerConfig × Option GoError) (kv : String × Tree) :
    jujuControllerConfig × Option GoError :=
  if keyIs kv.1 "details" then
    let r := storeDetails kv.2 acc.1.ProviderDetails acc.2
    ({ acc.1 with ProviderDetails := r.1 }, r.2)
  else if keyIs kv.1 "current-model" then
    let r := storeString kv.2 acc.1.CurrentModel acc.2
    ({ acc.1 with CurrentModel := r.1 }, r.2)
  else if keyIs kv.1 "models" then
    let r := storeModels kv.2 acc.1.Models acc.2
    ({ acc.1 with Models := r.1 }, r.2)
  else if keyIs kv.1 "account" then
    let r := storeAccount kv.2 acc.1.Account acc.2
    ({ acc.1 with Account := r.1 }, r.2)
  else acc

/-- A document stored into a `jujuControllerConfig`: members are taken in document
order, a key that matches no field is skipped, `null` changes nothing. -/
def decodeConfig (v : Tree) (cur : jujuControllerConfig) :
    jujuControllerConfig × Option GoError :=
  match v with
  | .obj kvs => kvs.foldl configField (cur, none)
  | .null => (cur, none)
  | other => (cur, some (typeError other "utils.jujuControllerConfig"))

/-- Go `json.Unmarshal(data, &c)` for a `c` of type `jujuControllerConfig`. -/
def UnmarshalConfig (data : Bytes) (c : jujuControllerConfig) :
    jujuControllerConfig × Option GoError :=
  match parse data with
  | .error err => (c, some err)
  | .ok t => decodeConfig t c

end Json

/-- The model of `encoding/json`. -/
def goJson : JsonLib :=
  { Unmarshal := Json.Unmarshal
    Marshal := Json.Marshal
    UnmarshalConfig := Json.UnmarshalConfig }

/-- The bytes of a text in UTF-8. -/
def utf8Bytes (s : String) : Bytes :=
  s.toList.flatMap (fun c => Json.utf8 c.toNat)

/-! ## Helpers that were never configured, and sample environments -/

/-- A helper that holds no configuration by its history: it is fresh, or every call of
`ConfigWithLocalJuju` on it so far ended otherwise than by returning `nil`. -/
inductive NeverConfigured : connectionHelper → Prop where
  | fresh : NeverConfigured NewConnectionHelper
  | failed (env : Env) (ch : connectionHelper) :
      NeverConfigured ch → (ConfigWithLocalJuju env ch).outcome ≠ .returned none →
      NeverConfigured (ConfigWithLocalJuju env ch).helper

/-- An environment with the model of `encoding/json`, in which the command line of the
helper ends as `run` says, any other command is not found, and the controller accepts
every connection. -/
def sampleEnv (run : ToolRun) (rangeStart : Nat) : Env :=
  { json := goJson
    exec := fun name args =>
      if name = "juju" ∧ args = jujuArgs then run
      else .notStarted ⟨"exec: executable file not found in $PATH"⟩
    rangeStart := rangeStart
    NewSimple := fun _ _ => .ok ⟨1⟩
    Connect := fun _ => .ok ⟨1⟩
    Get := fun _ _ _ => .ok ⟨[]⟩ }

/-- The controller document of the end-to-end scenario. -/
def sampleDocument : Bytes :=
  utf8Bytes ("\x7b\"ctl1\":\x7b\"details\":\x7b\"ca-cert\":\"CERT\"," ++
    "\"api-endpoints\":[\"10.0.0.1:17070\"]\x7d," ++
    "\"account\":\x7b\"user\":\"admin\",\"password\":\"secret\"\x7d\x7d\x7d")

/-- The value of the one entry of `sampleDocument`, decoded into an `interface{}`. -/
def sampleEntry : JVal :=
  .map [("details", .map [("ca-cert", .string "CERT"),
      ("api-endpoints", .slice [.string "10.0.0.1:17070"])]),
    ("account", .map [("user", .string "admin"), ("password", .string "secret")])]

/-- The `jujuControllerConfig` the entry of `sampleDocument` decodes into. -/
def sampleDecoded : jujuControllerConfig :=
  { jujuControllerConfig.zero with
    ProviderDetails :=
      { jujuControllerConfig.zero.ProviderDetails with
        CACert := "CERT", ApiEndpoints := some ["10.0.0.1:17070"] }
    Account := { User := "admin", Password := "secret", Access := "" } }

/-- The configuration of the end-to-end scenario. -/
def sampleConfig : ControllerConfig :=
  { JujuCaCert := "CERT"
    JujuControllerAddresses := some ["10.0.0.1:17070"]
    JujuUsername := "admin"
    JujuPassword := "secret"
    ModelUUID := "" }

/-! ## Shared lemmas -/

theorem storeConfig_config (d : jujuControllerConfig) :
    (storeConfig d).config = some
      { JujuCaCert := d.ProviderDetails.CACert
        JujuControllerAddresses := d.ProviderDetails.ApiEndpoints
        JujuUsername := d.Account.User
        JujuPassword := d.Account.Password
        ModelUUID := "" } := rfl

/-- A call of `ConfigWithLocalJuju` that does not return `nil` leaves the helper as it
was. -/
theorem ConfigWithLocalJuju_keeps (env : Env) (ch : connectionHelper)
    (h : (ConfigWithLocalJuju env ch).outcome ≠ .returned none) :
    (ConfigWithLocalJuju env ch).helper = ch := by
  revert h
  unfold ConfigWithLocalJuju
  split
  · intro _; rfl
  · split
    · intro _; rfl
    · split
      · split
        · intro h; exact absurd rfl h
        · split
          · intro _; rfl
          · split
            · intro _; rfl
            · intro h; exact absurd rfl h
      · intro _; rfl

/-- No call of `ConfigWithLocalJuju` reaches the connector or the application client. -/
theorem ConfigWithLocalJuju_quiet (env : Env) (ch : connectionHelper) :
    (ConfigWithLocalJuju env ch).trace.any Event.isDial = false ∧
    (ConfigWithLocalJuju env ch).trace.any Event.isClient = false := by
  unfold ConfigWithLocalJuju
  split
  · simp [Event.isDial, Event.isClient]
  · split
    · simp [Event.isDial, Event.isClient]
    · split
      · split
        · simp [Event.isDial, Event.isClient]
        · split
          · simp [Event.isDial, Event.isClient]
          · split
            · simp [Event.isDial, Event.isClient]
            · simp [Event.isDial, Event.isClient]
      · simp [Event.isDial, Event.isClient]

/-- A map with one entry is iterated from that entry, wherever the iteration starts. -/
theorem rangeFirst_single (start : Nat) (kv : String × JVal) :
    rangeFirst start [kv] = some kv := by
  simp [rangeFirst, Nat.mod_one]

theorem rangeFirst_nil (start : Nat) : rangeFirst start [] = none := by
  simp [rangeFirst]

/-- The whole run of `ConfigWithLocalJuju` on a document with one top-level entry that
decodes. -/
theorem ConfigWithLocalJuju_one_entry (env : Env) (ch : connectionHelper) (out : Bytes)
    (k : String) (v : JVal) (marshalled : Bytes) (d : jujuControllerConfig)
    (hrun : env.exec "juju" jujuArgs = .exited out 0)
    (hdoc : env.json.Unmarshal out = .ok (.map [(k, v)]))
    (henc : env.json.Marshal v = .ok marshalled)
    (hdec : env.json.UnmarshalConfig marshalled jujuControllerConfig.zero = (d, none)) :
    (ConfigWithLocalJuju env ch).outcome = .returned none ∧
      (ConfigWithLocalJuju env ch).helper = storeConfig d := by
  simp [ConfigWithLocalJuju, hrun, ToolRun.Output, hdoc, rangeFirst_single, henc, hdec]

/-- A helper that was never configured holds no configuration. -/
theorem NeverConfigured.config_none {ch : connectionHelper} (h : NeverConfigured ch) :
    ch.config = none := by
  induction h with
  | fresh => rfl
  | failed env ch _ hfail ih => rw [ConfigWithLocalJuju_keeps env ch hfail]; exact ih

/-- The run of `ConnectWithModel` on a helper without configuration. -/
theorem ConnectWithModel_nil (env : Env) (ch : connectionHelper) (model : String)
    (h : ch.config = none) :
    ConnectWithModel env ch model =
      ⟨ch, [Event.log .error [.err ⟨"nil configuration"⟩] "configure the helper first"],
        .returned (none, some ⟨"nil configuration"⟩)⟩ := by
  simp [ConnectWithModel, h]

/-- The run of `ConnectWithModel` on a helper with a configuration. -/
theorem ConnectWithModel_some (env : Env) (ch : connectionHelper) (c : ControllerConfig)
    (m : String) (h : ch.config = some c) :
    (ConnectWithModel env ch m).trace =
      Event.newSimple
        { ControllerAddresses := c.JujuControllerAddresses
          Username := c.JujuUsername
          Password := c.JujuPassword
          CACert := c.JujuCaCert
          ModelUUID := m } [dialOptions] ::
      (match env.NewSimple
          { ControllerAddresses := c.JujuControllerAddresses
            Username := c.JujuUsername
            Password := c.JujuPassword
            CACert := c.JujuCaCert
            ModelUUID := m } [dialOptions] with
        | .ok connr => [Event.connect connr]
        | .error _ => []) := by
  have hm : (if m ≠ "" then m else "") = m := by
    by_cases hm : m = ""
    · simp [hm]
    · simp [hm]
  simp only [ConnectWithModel, h, hm]
  generalize env.NewSimple _ _ = r
  cases r with
  | error err => rfl
  | ok connr =>
    dsimp only
    cases env.Connect connr <;> rfl

/-- The model of `encoding/json` writes `nil` as `null` and stores `null` into a struct
by leaving it as it is. -/
theorem goJson_null (c : jujuControllerConfig) :
    goJson.Marshal .nil = .ok [0x6E, 0x75, 0x6C, 0x6C] ∧
      goJson.UnmarshalConfig [0x6E, 0x75, 0x6C, 0x6C] c = (c, none) :=
  ⟨rfl, rfl⟩

/-- A decoded output that is not a map makes the type assertion of
`ConfigWithLocalJuju` panic, with the helper as it was. -/
theorem ConfigWithLocalJuju_panics (env : Env) (ch : connectionHelper) (out : Bytes) (v : JVal)
    (hrun : env.exec "juju" jujuArgs = .exited out 0)
    (hdoc : env.json.Unmarshal out = .ok v)
    (hv : ∀ kvs, v ≠ .map kvs) :
    (ConfigWithLocalJuju env ch).outcome = .panicked
        ("interface conversion: interface \x7b\x7d is " ++ v.typeName
          ++ ", not map[string]interface \x7b\x7d") ∧
      (ConfigWithLocalJuju env ch).helper = ch := by
  cases v with
  | map kvs => exact absurd rfl (hv kvs)
  | nil => simp [ConfigWithLocalJuju, hrun, ToolRun.Output, hdoc]
  | bool b => simp [ConfigWithLocalJuju, hrun, ToolRun.Output, hdoc]
  | float64 n => simp [ConfigWithLocalJuju, hrun, ToolRun.Output, hdoc]
  | string x => simp [ConfigWithLocalJuju, hrun, ToolRun.Output, hdoc]
  | slice xs => simp [ConfigWithLocalJuju, hrun, ToolRun.Output, hdoc]

/-- An array of strings is stored as the list of those strings. -/
theorem Json.storeStrings_strs (endpoints : List String) (cur : Option (List String))
    (saved : Option GoError) :
    Json.storeStrings (.arr (endpoints.map .str)) cur saved = (some endpoints, saved) := by
  have h : ∀ (xs acc : List String),
      (xs.map Json.Tree.str).foldl (fun (acc : List String × Option GoError) x =>
        ((acc.1 ++ [(Json.storeString x ((cur.getD []).getD acc.1.length "") acc.2).1],
          (Json.storeString x ((cur.getD []).getD acc.1.length "") acc.2).2)))
        (acc, saved) = (acc ++ xs, saved) := by
    intro xs
    induction xs with
    | nil => intro acc; simp
    | cons x xs ih =>
      intro acc
      simp only [List.map_cons, List.foldl_cons]
      have hx : ∀ old, Json.storeString (.str x) old saved = (x, saved) := fun _ => rfl
      rw [hx]
      simp only []
      rw [ih]
      simp
  have h0 := h endpoints []
  simp only [Json.storeStrings, h0, List.nil_append]

/-- The tags of `jujuControllerConfig`: a document of the shape the tool prints is stored
with `details.ca-cert` as `CACert`, `details.api-endpoints` as `ApiEndpoints`,
`account.user` as `User` and `account.password` as `Password`. -/
theorem Json.decodeConfig_document (cert user password : String) (endpoints : List String) :
    Json.decodeConfig
      (.obj [("details", .obj [("ca-cert", .str cert),
          ("api-endpoints", .arr (endpoints.map .str))]),
        ("account", .obj [("user", .str user), ("password", .str password)])])
      jujuControllerConfig.zero
    = ({ jujuControllerConfig.zero with
          ProviderDetails :=
            { jujuControllerConfig.zero.ProviderDetails with
              CACert := cert, ApiEndpoints := some endpoints }
          Account := { User := user, Password := password, Access := "" } }, none) := by
  have k0 : Json.keyIs "details" "details" = true := by decide
  have k1 : Json.keyIs "account" "details" = false := by decide
  have k2 : Json.keyIs "account" "current-model" = false := by decide
  have k3 : Json.keyIs "account" "models" = false := by decide
  have k4 : Json.keyIs "account" "account" = true := by decide
  have k5 : Json.keyIs "ca-cert" "uuid" = false := by decide
  have k6 : Json.keyIs "ca-cert" "api-endpoints" = false := by decide
  have k7 : Json.keyIs "ca-cert" "cloud" = false := by decide
  have k8 : Json.keyIs "ca-cert" "region" = false := by decide
  have k9 : Json.keyIs "ca-cert" "agent-version" = false := by decide
  have k10 : Json.keyIs "ca-cert" "agent-git-commit" = false := by decide
  have k11 : Json.keyIs "ca-cert" "controller-model-version" = false := by decide
  have k12 : Json.keyIs "ca-cert" "mongo-version" = false := by decide
  have k13 : Json.keyIs "ca-cert" "ca-fingerprint" = false := by decide
  have k14 : Json.keyIs "ca-cert" "ca-cert" = true := by decide
  have k15 : Json.keyIs "api-endpoints" "uuid" = false := by decide
  have k16 : Json.keyIs "api-endpoints" "api-endpoints" = true := by decide
  have k17 : Json.keyIs "user" "user" = true := by decide
  have k18 : Json.keyIs "password" "user" = false := by decide
  have k19 : Json.keyIs "password" "password" = true := by decide
  simp only [Json.decodeConfig, List.foldl, Json.configField, Json.storeDetails, Json.storeAccount,
    Json.detailsField, Json.accountField, Json.storeStrings_strs, Json.storeString,
    k0, k1, k2, k3, k4, k5, k6, k7, k8, k9, k10, k11, k12, k13, k14, k15, k16, k17, k18, k19, if_true, if_false, Bool.false_eq_true]
  rfl

/-- When the load of `doSomething` returns an error, the function logs it, calls
`ConnectWithModel`, which finds no configuration and returns `nil configuration`, and
returns: its events are those of the load and two log lines, with no connector, no dial
and no application client. -/
theorem doSomething_of_returned_error (env : Env) (err : GoError)
    (h : (ConfigWithLocalJuju env NewConnectionHelper).outcome = .returned (some err)) :
    (ConnectWithModel env (ConfigWithLocalJuju env NewConnectionHelper).helper
        "f72ef260-3f4d-4f29-8e2a-32fc2bbfea60").outcome
        = .returned (none, some ⟨"nil configuration"⟩) ∧
      (doSomething env).outcome = .returned () ∧
      (doSomething env).trace =
        Event.logOutput :: (ConfigWithLocalJuju env NewConnectionHelper).trace ++
          [Event.log .error [.err err] "failed when configuring connection",
            Event.log .error [.err ⟨"nil configuration"⟩] "configure the helper first"] ∧
      (doSomething env).trace.any Event.isDial = false ∧
      (doSomething env).trace.any Event.isClient = false := by
  have hkeep : (ConfigWithLocalJuju env NewConnectionHelper).helper = NewConnectionHelper :=
    ConfigWithLocalJuju_keeps env _ (by rw [h]; simp)
  have hconn := ConnectWithModel_nil env NewConnectionHelper
    "f72ef260-3f4d-4f29-8e2a-32fc2bbfea60" rfl
  have hq := ConfigWithLocalJuju_quiet env NewConnectionHelper
  have hrun : doSomething env =
      ⟨NewConnectionHelper,
        Event.logOutput :: (ConfigWithLocalJuju env NewConnectionHelper).trace ++
          [Event.log .error [.err err] "failed when configuring connection",
            Event.log .error [.err ⟨"nil configuration"⟩] "configure the helper first"],
        .returned ()⟩ := by
    simp [doSomething, h, hkeep, hconn]
  rw [hrun, hkeep, hconn]
  refine ⟨rfl, rfl, rfl, ?_, ?_⟩
  · simpa [Event.isDial] using hq.1
  · simpa [Event.isClient] using hq.2

/-- When the load of `doSomething` panics, `doSomething` ends in that panic right after
the load: `ConnectWithModel` is not called and nothing is logged after the load. -/
theorem doSomething_of_panicked (env : Env) (msg : String)
    (h : (ConfigWithLocalJuju env NewConnectionHelper).outcome = .panicked msg) :
    doSomething env =
      ⟨NewConnectionHelper, Event.logOutput :: (ConfigWithLocalJuju env NewConnectionHelper).trace,
        .panicked msg⟩ := by
  have hkeep : (ConfigWithLocalJuju env NewConnectionHelper).helper = NewConnectionHelper :=
    ConfigWithLocalJuju_keeps env _ (by rw [h]; simp)
  simp [doSomething, h, hkeep]

/-! ## The claims -/

/-- C1: when the tool exits with status zero and its output decodes to a JSON object
with exactly one top-level entry whose value decodes into a `jujuControllerConfig` `d`,
`ConfigWithLocalJuju` returns `nil` and the helper holds exactly the certificate, the
endpoint list, the user and the password of `d`, with `ModelUUID` empty. -/
theorem ConfigWithLocalJuju_single_entry (env : Env) (ch : connectionHelper) (out : Bytes)
    (k : String) (v : JVal) (marshalled : Bytes) (d : jujuControllerConfig)
    (hrun : env.exec "juju" jujuArgs = .exited out 0)
    (hdoc : env.json.Unmarshal out = .ok (.map [(k, v)]))
    (henc : env.json.Marshal v = .ok marshalled)
    (hdec : env.json.UnmarshalConfig marshalled jujuControllerConfig.zero = (d, none)) :
    (ConfigWithLocalJuju env ch).outcome = .returned none ∧
      (ConfigWithLocalJuju env ch).helper.config = some
        { JujuCaCert := d.ProviderDetails.CACert
          JujuControllerAddresses := d.ProviderDetails.ApiEndpoints
          JujuUsername := d.Account.User
          JujuPassword := d.Account.Password
          ModelUUID := "" } := by
  obtain ⟨h1, h2⟩ := ConfigWithLocalJuju_one_entry env ch out k v marshalled d hrun hdoc henc hdec
  exact ⟨h1, by rw [h2, storeConfig_config]⟩

/-- The end-to-end document of the specification: certificate `CERT`, one address,
user `admin`, password `secret`, no model. -/
theorem ConfigWithLocalJuju_single_entry_witness :
    goJson.Unmarshal sampleDocument = .ok (.map [("ctl1", sampleEntry)]) ∧
      goJson.UnmarshalConfig (Json.enc sampleEntry) jujuControllerConfig.zero
        = (sampleDecoded, none) ∧
      (ConfigWithLocalJuju (sampleEnv (.exited sampleDocument 0) 0) NewConnectionHelper).outcome
        = .returned none ∧
      (ConfigWithLocalJuju (sampleEnv (.exited sampleDocument 0) 0) NewConnectionHelper).helper.config
        = some sampleConfig :=
  ⟨by rfl, by rfl,
    ConfigWithLocalJuju_single_entry (sampleEnv (.exited sampleDocument 0) 0) NewConnectionHelper
      sampleDocument "ctl1" sampleEntry (Json.enc sampleEntry) sampleDecoded rfl (by rfl) rfl
      (by rfl)⟩

/-- C2: when the tool exits with status zero and `json.Unmarshal` rejects its output,
`ConfigWithLocalJuju` returns that error and the helper is what it was before the
call. -/
theorem ConfigWithLocalJuju_invalid_json (env : Env) (ch : connectionHelper) (out : Bytes)
    (err : GoError)
    (hrun : env.exec "juju" jujuArgs = .exited out 0)
    (hbad : env.json.Unmarshal out = .error err) :
    (ConfigWithLocalJuju env ch).outcome = .returned (some err) ∧
      (ConfigWithLocalJuju env ch).helper = ch := by
  simp [ConfigWithLocalJuju, hrun, ToolRun.Output, hbad]

/-- A truncated document, loaded into a helper that already holds a configuration. -/
theorem ConfigWithLocalJuju_invalid_json_witness :
    Json.Valid (utf8Bytes "\x7b\"ctl1\":") = false ∧
      goJson.Unmarshal (utf8Bytes "\x7b\"ctl1\":") = .error Json.unexpectedEnd ∧
      (ConfigWithLocalJuju (sampleEnv (.exited (utf8Bytes "\x7b\"ctl1\":") 0) 0)
        ⟨some sampleConfig⟩).outcome = .returned (some Json.unexpectedEnd) ∧
      (ConfigWithLocalJuju (sampleEnv (.exited (utf8Bytes "\x7b\"ctl1\":") 0) 0)
        ⟨some sampleConfig⟩).helper = ⟨some sampleConfig⟩ :=
  ⟨by rfl, by rfl,
    ConfigWithLocalJuju_invalid_json (sampleEnv (.exited (utf8Bytes "\x7b\"ctl1\":") 0) 0)
      ⟨some sampleConfig⟩ (utf8Bytes "\x7b\"ctl1\":") Json.unexpectedEnd rfl (by rfl)⟩

/-- C3: on a helper that was never configured, `ConnectWithModel` returns a nil
connection and the error `nil configuration`, and its only effect is one log line: no
connector is built and nothing is dialled. -/
theorem ConnectWithModel_not_configured (env : Env) (ch : connectionHelper) (model : String)
    (h : NeverConfigured ch) :
    (ConnectWithModel env ch model).outcome = .returned (none, some ⟨"nil configuration"⟩) ∧
      (ConnectWithModel env ch model).trace =
        [Event.log .error [.err ⟨"nil configuration"⟩] "configure the helper first"] ∧
      (ConnectWithModel env ch model).trace.any Event.isDial = false := by
  rw [ConnectWithModel_nil env ch model h.config_none]
  exact ⟨rfl, rfl, rfl⟩

/-- A helper after one load that failed on a truncated document. -/
theorem ConnectWithModel_not_configured_witness :
    NeverConfigured (ConfigWithLocalJuju (sampleEnv (.exited (utf8Bytes "\x7b\"ctl1\":") 0) 0)
        NewConnectionHelper).helper ∧
      (ConnectWithModel (sampleEnv (.exited sampleDocument 0) 0)
        (ConfigWithLocalJuju (sampleEnv (.exited (utf8Bytes "\x7b\"ctl1\":") 0) 0)
          NewConnectionHelper).helper "model-123").outcome
        = .returned (none, some ⟨"nil configuration"⟩) :=
  ⟨.failed _ _ .fresh (by
      have h : (ConfigWithLocalJuju (sampleEnv (.exited (utf8Bytes "\x7b\"ctl1\":") 0) 0)
          NewConnectionHelper).outcome = .returned (some Json.unexpectedEnd) := by rfl
      rw [h]; simp),
    (ConnectWithModel_not_configured (sampleEnv (.exited sampleDocument 0) 0) _ "model-123"
      (.failed _ _ .fresh (by
        have h : (ConfigWithLocalJuju (sampleEnv (.exited (utf8Bytes "\x7b\"ctl1\":") 0) 0)
            NewConnectionHelper).outcome = .returned (some Json.unexpectedEnd) := by rfl
        rw [h]; simp))).1⟩

/-- C4: with a configuration `c` held, `ConnectWithModel m` first hands the connector a
request made of the addresses, user, password and certificate of `c` and of the model
`m` of the caller, together with the one dial option `dialOptions`, which sets the
timeout to five minutes and the retry delay to one second and nothing else; the dial
follows when the connector was built. -/
theorem ConnectWithModel_dial_request (env : Env) (ch : connectionHelper)
    (c : ControllerConfig) (m : String) (h : ch.config = some c) :
    (ConnectWithModel env ch m).trace =
      Event.newSimple
        { ControllerAddresses := c.JujuControllerAddresses
          Username := c.JujuUsername
          Password := c.JujuPassword
          CACert := c.JujuCaCert
          ModelUUID := m } [dialOptions] ::
      (match env.NewSimple
          { ControllerAddresses := c.JujuControllerAddresses
            Username := c.JujuUsername
            Password := c.JujuPassword
            CACert := c.JujuCaCert
            ModelUUID := m } [dialOptions] with
        | .ok connr => [Event.connect connr]
        | .error _ => []) ∧
      ∀ d : DialOpts, dialOptions d =
        { d with Timeout := 5 * 60 * 1000000000, RetryDelay := 1000000000 } :=
  ⟨ConnectWithModel_some env ch c m h, fun _ => rfl⟩

/-- The end-to-end scenario: the sample configuration and the model `model-123`. -/
theorem ConnectWithModel_dial_request_witness :
    (ConnectWithModel (sampleEnv (.exited sampleDocument 0) 0) ⟨some sampleConfig⟩
        "model-123").trace =
      [Event.newSimple
        { ControllerAddresses := some ["10.0.0.1:17070"]
          Username := "admin"
          Password := "secret"
          CACert := "CERT"
          ModelUUID := "model-123" } [dialOptions],
        Event.connect ⟨1⟩] ∧
      (dialOptions ⟨0, 0, 0, 0, false⟩).Timeout = 300000000000 ∧
      (dialOptions ⟨0, 0, 0, 0, false⟩).RetryDelay = 1000000000 :=
  ⟨(ConnectWithModel_dial_request (sampleEnv (.exited sampleDocument 0) 0) ⟨some sampleConfig⟩
      sampleConfig "model-123" rfl).1,
    by rw [(ConnectWithModel_dial_request (sampleEnv (.exited sampleDocument 0) 0)
      ⟨some sampleConfig⟩ sampleConfig "model-123" rfl).2]; decide,
    by rw [(ConnectWithModel_dial_request (sampleEnv (.exited sampleDocument 0) 0)
      ⟨some sampleConfig⟩ sampleConfig "model-123" rfl).2]⟩

/-- C5: when the tool ends with a nonzero exit status, whatever it wrote,
`ConfigWithLocalJuju` returns the error of `Output`, the helper is what it was, and the
only events are the command and one log line: `encoding/json` is not called. -/
theorem ConfigWithLocalJuju_nonzero_exit (env : Env) (ch : connectionHelper) (out : Bytes)
    (status : Nat) (hstatus : status ≠ 0)
    (hrun : env.exec "juju" jujuArgs = .exited out status) :
    (ConfigWithLocalJuju env ch).outcome
        = .returned (some ⟨"exit status " ++ toString status⟩) ∧
      (ConfigWithLocalJuju env ch).helper = ch ∧
      (ConfigWithLocalJuju env ch).trace =
        [Event.exec "juju" jujuArgs,
          Event.log .error [.err ⟨"exit status " ++ toString status⟩]
            "error invoking juju CLI"] ∧
      (ConfigWithLocalJuju env ch).trace.any Event.isDecode = false := by
  cases status with
  | zero => exact absurd rfl hstatus
  | succ n => simp [ConfigWithLocalJuju, hrun, ToolRun.Output, Event.isDecode]

/-- The well-formed sample document written by a tool that exits with status 1. -/
theorem ConfigWithLocalJuju_nonzero_exit_witness :
    (ConfigWithLocalJuju (sampleEnv (.exited sampleDocument 1) 0) NewConnectionHelper).outcome
        = .returned (some ⟨"exit status 1"⟩) ∧
      (ConfigWithLocalJuju (sampleEnv (.exited sampleDocument 1) 0) NewConnectionHelper).helper
        = NewConnectionHelper :=
  ⟨(ConfigWithLocalJuju_nonzero_exit (sampleEnv (.exited sampleDocument 1) 0)
      NewConnectionHelper sampleDocument 1 (by decide) rfl).1,
    (ConfigWithLocalJuju_nonzero_exit (sampleEnv (.exited sampleDocument 1) 0)
      NewConnectionHelper sampleDocument 1 (by decide) rfl).2.1⟩

/-- C6: the outputs `[1,2]` and `null` are valid JSON whose top level is not a mapping;
on them `ConfigWithLocalJuju` does not return an error: the output is decoded, the
unchecked type assertion panics, and the call ends there with the helper unchanged. -/
theorem ConfigWithLocalJuju_not_a_mapping_panics :
    (Json.Valid (utf8Bytes "[1,2]") = true ∧
      goJson.Unmarshal (utf8Bytes "[1,2]")
        = .ok (.slice [.float64 ⟨false, 1, 0⟩, .float64 ⟨false, 2, 0⟩]) ∧
      ConfigWithLocalJuju (sampleEnv (.exited (utf8Bytes "[1,2]") 0) 0) NewConnectionHelper
        = ⟨NewConnectionHelper,
          [Event.exec "juju" jujuArgs, Event.jsonUnmarshal (utf8Bytes "[1,2]")],
          .panicked
            "interface conversion: interface \x7b\x7d is []interface \x7b\x7d, not map[string]interface \x7b\x7d"⟩) ∧
    (Json.Valid (utf8Bytes "null") = true ∧
      goJson.Unmarshal (utf8Bytes "null") = .ok .nil ∧
      ConfigWithLocalJuju (sampleEnv (.exited (utf8Bytes "null") 0) 0) NewConnectionHelper
        = ⟨NewConnectionHelper,
          [Event.exec "juju" jujuArgs, Event.jsonUnmarshal (utf8Bytes "null")],
          .panicked
            "interface conversion: interface \x7b\x7d is nil, not map[string]interface \x7b\x7d"⟩) :=
  ⟨⟨by rfl, by rfl, by rfl⟩, ⟨by rfl, by rfl, by rfl⟩⟩

/-- C7: `Connect` is `ConnectWithModel` with the empty model: the same run for every
helper and every environment, and with a configuration held the request it hands to the
connector has `ModelUUID` empty. -/
theorem Connect_eq_ConnectWithModel_empty (env : Env) (ch : connectionHelper) :
    Connect env ch = ConnectWithModel env ch "" ∧
      ∀ c : ControllerConfig, ch.config = some c →
        (Connect env ch).trace.head? = some (Event.newSimple
          { ControllerAddresses := c.JujuControllerAddresses
            Username := c.JujuUsername
            Password := c.JujuPassword
            CACert := c.JujuCaCert
            ModelUUID := "" } [dialOptions]) := by
  refine ⟨rfl, fun c h => ?_⟩
  rw [Connect, ConnectWithModel_some env ch c "" h]
  rfl

/-- The sample configuration, connected without a model. -/
theorem Connect_eq_ConnectWithModel_empty_witness :
    (Connect (sampleEnv (.exited sampleDocument 0) 0) ⟨some sampleConfig⟩).trace.head? =
      some (Event.newSimple
        { ControllerAddresses := some ["10.0.0.1:17070"]
          Username := "admin"
          Password := "secret"
          CACert := "CERT"
          ModelUUID := "" } [dialOptions]) :=
  (Connect_eq_ConnectWithModel_empty (sampleEnv (.exited sampleDocument 0) 0)
    ⟨some sampleConfig⟩).2 sampleConfig rfl

/-- C8: two loads of the same well-formed document with one top-level entry, by the same
JSON library, end with the same helper whatever the two helpers held before and
wherever the two map iterations start; loading it again on top of the first load changes
nothing. -/
theorem ConfigWithLocalJuju_idempotent (env1 env2 : Env) (ch1 ch2 : connectionHelper)
    (out : Bytes) (k : String) (v : JVal) (marshalled : Bytes) (d : jujuControllerConfig)
    (hjson : env2.json = env1.json)
    (hrun1 : env1.exec "juju" jujuArgs = .exited out 0)
    (hrun2 : env2.exec "juju" jujuArgs = .exited out 0)
    (hdoc : env1.json.Unmarshal out = .ok (.map [(k, v)]))
    (henc : env1.json.Marshal v = .ok marshalled)
    (hdec : env1.json.UnmarshalConfig marshalled jujuControllerConfig.zero = (d, none)) :
    (ConfigWithLocalJuju env1 ch1).helper = (ConfigWithLocalJuju env2 ch2).helper ∧
      (ConfigWithLocalJuju env2 (ConfigWithLocalJuju env1 ch1).helper).helper
        = (ConfigWithLocalJuju env1 ch1).helper := by
  have h1 := fun ch =>
    (ConfigWithLocalJuju_one_entry env1 ch out k v marshalled d hrun1 hdoc henc hdec).2
  have h2 := fun ch =>
    (ConfigWithLocalJuju_one_entry env2 ch out k v marshalled d hrun2 (hjson ▸ hdoc)
      (hjson ▸ henc) (hjson ▸ hdec)).2
  rw [h1, h2, h2]
  exact ⟨rfl, rfl⟩

/-- The sample document loaded into a fresh helper and into one that holds another
configuration with a model, the two iterations starting at different places. -/
theorem ConfigWithLocalJuju_idempotent_witness :
    (ConfigWithLocalJuju (sampleEnv (.exited sampleDocument 0) 0) NewConnectionHelper).helper
        = (ConfigWithLocalJuju (sampleEnv (.exited sampleDocument 0) 7)
          ⟨some ⟨"OLD", none, "x", "y", "model-9"⟩⟩).helper ∧
      (ConfigWithLocalJuju (sampleEnv (.exited sampleDocument 0) 7)
        (ConfigWithLocalJuju (sampleEnv (.exited sampleDocument 0) 0) NewConnectionHelper).helper).helper
        = (ConfigWithLocalJuju (sampleEnv (.exited sampleDocument 0) 0) NewConnectionHelper).helper :=
  ConfigWithLocalJuju_idempotent (sampleEnv (.exited sampleDocument 0) 0)
    (sampleEnv (.exited sampleDocument 0) 7) NewConnectionHelper
    ⟨some ⟨"OLD", none, "x", "y", "model-9"⟩⟩ sampleDocument "ctl1" sampleEntry
    (Json.enc sampleEntry) sampleDecoded rfl rfl rfl (by rfl) rfl (by rfl)

/-- C9: when the tool exits with status zero and prints an object with no entries, or
with one entry whose value is `null` (which `encoding/json` writes as `null` and stores
into a struct without touching it), `ConfigWithLocalJuju` returns `nil`, the helper
holds a configuration whose fields are all empty and whose address list is nil, and
every following `ConnectWithModel` starts by handing the connector a request without
addresses. -/
theorem ConfigWithLocalJuju_empty_document (env : Env) (ch : connectionHelper) (out : Bytes)
    (k : String) (marshalled : Bytes)
    (hrun : env.exec "juju" jujuArgs = .exited out 0)
    (hdoc : env.json.Unmarshal out = .ok (.map []) ∨
      (env.json.Unmarshal out = .ok (.map [(k, .nil)]) ∧
        env.json.Marshal .nil = .ok marshalled ∧
        env.json.UnmarshalConfig marshalled jujuControllerConfig.zero
          = (jujuControllerConfig.zero, none))) :
    (ConfigWithLocalJuju env ch).outcome = .returned none ∧
      (ConfigWithLocalJuju env ch).helper.config = some
        { JujuCaCert := "", JujuControllerAddresses := none, JujuPassword := "",
          JujuUsername := "", ModelUUID := "" } ∧
      ∀ (env2 : Env) (m : String),
        (ConnectWithModel env2 (ConfigWithLocalJuju env ch).helper m).trace.head? =
          some (Event.newSimple
            { ControllerAddresses := none, Username := "", Password := "", CACert := "",
              ModelUUID := m } [dialOptions]) := by
  have key : (ConfigWithLocalJuju env ch).outcome = .returned none ∧
      (ConfigWithLocalJuju env ch).helper = storeConfig jujuControllerConfig.zero := by
    rcases hdoc with h | ⟨h, henc, hdec⟩
    · simp [ConfigWithLocalJuju, hrun, ToolRun.Output, h, rangeFirst_nil]
    · exact ConfigWithLocalJuju_one_entry env ch out k .nil marshalled _ hrun h henc hdec
  refine ⟨key.1, by rw [key.2]; rfl, fun env2 m => ?_⟩
  rw [key.2, ConnectWithModel_some env2 (storeConfig jujuControllerConfig.zero)
    ControllerConfig.zero m rfl]
  rfl

/-- The outputs `{}` and `{"ctl1":null}`. -/
theorem ConfigWithLocalJuju_empty_document_witness :
    (ConfigWithLocalJuju (sampleEnv (.exited (utf8Bytes "\x7b\x7d") 0) 0)
        NewConnectionHelper).helper.config = some ControllerConfig.zero ∧
      (ConfigWithLocalJuju (sampleEnv (.exited (utf8Bytes "\x7b\"ctl1\":null\x7d") 0) 0)
        NewConnectionHelper).helper.config = some ControllerConfig.zero :=
  ⟨(ConfigWithLocalJuju_empty_document (sampleEnv (.exited (utf8Bytes "\x7b\x7d") 0) 0)
      NewConnectionHelper (utf8Bytes "\x7b\x7d") "" [] rfl (Or.inl (by rfl))).2.1,
    (ConfigWithLocalJuju_empty_document
      (sampleEnv (.exited (utf8Bytes "\x7b\"ctl1\":null\x7d") 0) 0) NewConnectionHelper
      (utf8Bytes "\x7b\"ctl1\":null\x7d") "ctl1" [0x6E, 0x75, 0x6C, 0x6C] rfl
      (Or.inr ⟨by rfl, (goJson_null jujuControllerConfig.zero).1,
        (goJson_null jujuControllerConfig.zero).2⟩)).2.1⟩

/-- C10: at the tool output `[1,2]` with exit status zero the load on the fresh helper of
`doSomething` fails by panicking at the unchecked type assertion, and `doSomething`
ends in that panic: `ConnectWithModel` is never called, the nil-configuration error is
never produced, and `doSomething` does not return.  Its events are the logger set-up, the
command and the decode, so no dial is attempted and no application client is made. -/
theorem doSomething_load_panics :
    (ConfigWithLocalJuju (sampleEnv (.exited (utf8Bytes "[1,2]") 0) 0) NewConnectionHelper).outcome
        ≠ .returned none ∧
      doSomething (sampleEnv (.exited (utf8Bytes "[1,2]") 0) 0)
        = ⟨NewConnectionHelper,
          [Event.logOutput, Event.exec "juju" jujuArgs, Event.jsonUnmarshal (utf8Bytes "[1,2]")],
          .panicked
            "interface conversion: interface \x7b\x7d is []interface \x7b\x7d, not map[string]interface \x7b\x7d"⟩ ∧
      (doSomething (sampleEnv (.exited (utf8Bytes "[1,2]") 0) 0)).outcome ≠ .returned () := by
  have h : (ConfigWithLocalJuju (sampleEnv (.exited (utf8Bytes "[1,2]") 0) 0)
      NewConnectionHelper).outcome = .panicked
        "interface conversion: interface \x7b\x7d is []interface \x7b\x7d, not map[string]interface \x7b\x7d" := by
    rfl
  have hrun : doSomething (sampleEnv (.exited (utf8Bytes "[1,2]") 0) 0)
      = ⟨NewConnectionHelper,
        [Event.logOutput, Event.exec "juju" jujuArgs, Event.jsonUnmarshal (utf8Bytes "[1,2]")],
        .panicked
          "interface conversion: interface \x7b\x7d is []interface \x7b\x7d, not map[string]interface \x7b\x7d"⟩ := by
    rfl
  refine ⟨by rw [h]; simp, hrun, by rw [hrun]; simp⟩

end JujuClient
